import Mathlib

/-!
Verification of the FleetMan fleet-management service (FleetLands/fleetman).

The repository contains several near-duplicate iterations of the same
Express/PostgreSQL application.  The final iteration (the second
application in `src/server.js`, the one described by `README.md` and
`ISSUES_FIXED.md`) is taken as the authoritative implementation; the
earlier iteration at the top of `src/server.js` is embedded separately
where a claim refers to it (the `auth` middleware).

The shallow embedding models the PostgreSQL store as lists of records,
SQL `UPDATE`/`INSERT`/`DELETE`/`SELECT` statements as list operations,
timestamps as `Nat`, and `NULL` as `Option.none`.  HTTP handlers become
functions from a store (plus request data) to a status code and a new
store.  The external `jsonwebtoken` library is modelled from the spec's
documented contract for it.
-/

/-- A row of the `users` table.  The `created_at` column is defaulted by
the database and read by no claim, so it is omitted. -/
structure User where
  id : Nat
  username : String
  password_hash : String
  role : String
deriving Repr, DecidableEq

/-- A row of the `cars` table (`created_at` omitted as for `User`). -/
structure Car where
  id : Nat
  license_plate : String
  model : String
  is_active : Bool
deriving Repr, DecidableEq

/-- A row of the `drivers` table. -/
structure Driver where
  id : Nat
  name : String
  phone : Option String
  is_active : Bool
deriving Repr, DecidableEq

/-- A row of the `assignments` table.  `unassigned_at = none` means the
SQL value is `NULL`, i.e. the assignment is open. -/
structure Assignment where
  id : Nat
  car_id : Nat
  driver_id : Nat
  assigned_by : Nat
  assigned_at : Nat
  unassigned_at : Option Nat
  unassigned_by : Option Nat
deriving Repr, DecidableEq

/-- The whole PostgreSQL database. -/
structure Store where
  users : List User
  cars : List Car
  drivers : List Driver
  assignments : List Assignment
deriving Repr, DecidableEq

/-- An assignment row is open iff `unassigned_at` is SQL `NULL`. -/
def Assignment.isOpen (a : Assignment) : Bool :=
  a.unassigned_at.isNone

/- ### String helpers (JavaScript string operations) -/

/-- Whitespace characters recognised by JavaScript `trim` (the common
ones). -/
def isWS (c : Char) : Bool :=
  c == ' ' || c == '\t' || c == '\n' || c == '\r'

/-- JavaScript `String.prototype.trim`. -/
def trimStr (s : String) : String :=
  String.mk (((s.toList.dropWhile isWS).reverse.dropWhile isWS).reverse)

/-- JavaScript `String.prototype.toUpperCase` (ASCII). -/
def toUpperStr (s : String) : String :=
  String.mk (s.toList.map Char.toUpper)

/-- Characters allowed by the username pattern `^[a-zA-Z0-9_]+$`. -/
def isUsernameChar (c : Char) : Bool :=
  c.isAlphanum || c == '_'

/-- The `validateRequest` username schema of the final `server.js`:
required, string, `minLength 3`, `maxLength 50`, pattern
`^[a-zA-Z0-9_]+$`. -/
def validUsername (u : String) : Bool :=
  decide (3 ≤ u.toList.length) && decide (u.toList.length ≤ 50)
    && u.toList.all isUsernameChar

/-- The `validateRequest` password schema: required, string,
`minLength 3`, `maxLength 100`. -/
def validPassword (p : String) : Bool :=
  decide (3 ≤ p.toList.length) && decide (p.toList.length ≤ 100)

/-- The `required` check of `validateRequest`: fails when the value is
falsy or trims to the empty string. -/
def requiredFail (v : String) : Bool :=
  trimStr v == ""

/- ### JWT model -/

/-- The payload signed by `jwt.sign({id, username, role}, SECRET)`. -/
structure Claims where
  id : Nat
  username : String
  role : String
deriving Repr, DecidableEq

/-- Modelled from the spec: `jsonwebtoken` is an external collaborator
"treated as an opaque primitive with documented contracts"; a signed
token embeds the claims, the signing secret, and an expiry instant. -/
structure SignedToken where
  claims : Claims
  sig : String
  exp : Nat
deriving Repr, DecidableEq

/-- Modelled from the spec: `jwt.sign` of the claims under a secret with
a given expiry. -/
def jwtSign (secret : String) (c : Claims) (exp : Nat) : SignedToken :=
  ⟨c, secret, exp⟩

/-- Modelled from the spec: `jwt.verify` succeeds exactly when the token
was signed with the same secret and has not expired; otherwise it
errors (which subsumes wrong-signature and expired tokens). -/
def jwtVerify (secret : String) (now : Nat) (t : SignedToken) : Option Claims :=
  if t.sig == secret && decide (now < t.exp) then some t.claims else none

/-- The `Authorization` header of a request: absent, present without a
token part (`split(" ")[1]` is undefined), or carrying a token string
that either parses as a signed token or is malformed (`none`). -/
inductive HeaderModel where
  | absent
  | noToken
  | token (t : Option SignedToken)
deriving Repr, DecidableEq

/-- The `auth` middleware of the first `server.js` iteration
(`src/server.js` lines 29-42): any `jwt.verify` failure —
missing, malformed, expired or wrongly signed token — is caught and
answered with 401; a verified token whose role differs from the
required one gets 403; otherwise the request proceeds with the decoded
claims. -/
def authV1 (secret : String) (now : Nat) (requiredRole : Option String)
    (h : HeaderModel) : Except Nat Claims :=
  match h with
  | .absent => .error 401
  | .noToken => .error 401
  | .token none => .error 401
  | .token (some t) =>
    match jwtVerify secret now t with
    | none => .error 401
    | some c =>
      match requiredRole with
      | some r => if c.role == r then .ok c else .error 403
      | none => .ok c

/-- The `auth` middleware of the final iteration (`src/server.js` lines
471-499, identically `src/unnamed/part_000` lines 64-92): a missing
header or missing token part gets 401, but a `jwt.verify` error
(malformed, expired or wrongly signed token) gets 403, as does a role
mismatch. -/
def authFixed (secret : String) (now : Nat) (requiredRole : Option String)
    (h : HeaderModel) : Except Nat Claims :=
  match h with
  | .absent => .error 401
  | .noToken => .error 401
  | .token none => .error 403
  | .token (some t) =>
    match jwtVerify secret now t with
    | none => .error 403
    | some c =>
      match requiredRole with
      | some r => if c.role == r then .ok c else .error 403
      | none => .ok c

/-- Follows the spec's words (§4.1 `authorize`): `Unauthenticated` (401)
if the token is missing, malformed, expired or has an invalid
signature; `Forbidden` (403) if a required role is given and the claim's
role does not match; otherwise the claims are returned. -/
def specAuthorize (secret : String) (now : Nat) (requiredRole : Option String)
    (h : HeaderModel) : Except Nat Claims :=
  match h with
  | .token (some t) =>
    match jwtVerify secret now t with
    | some c =>
      match requiredRole with
      | some r => if c.role == r then .ok c else .error 403
      | none => .ok c
    | none => .error 401
  | _ => .error 401

/-- Whether the header carries a token part that fails verification
(the case where the two middlewares answer differently). -/
def tokenPresentButInvalid (secret : String) (now : Nat) (h : HeaderModel) : Bool :=
  match h with
  | .token none => true
  | .token (some t) => (jwtVerify secret now t).isNone
  | _ => false

/- ### Fresh serial ids (the database `SERIAL` columns) -/

/-- A fresh serial id: one more than the largest id in use. -/
def freshUserId (l : List User) : Nat :=
  (l.map User.id).foldr max 0 + 1

/-- A fresh serial id for the `cars` table. -/
def freshCarId (l : List Car) : Nat :=
  (l.map Car.id).foldr max 0 + 1

/-- A fresh serial id for the `drivers` table. -/
def freshDriverId (l : List Driver) : Nat :=
  (l.map Driver.id).foldr max 0 + 1

/-- A fresh serial id for the `assignments` table. -/
def freshAssignmentId (l : List Assignment) : Nat :=
  (l.map Assignment.id).foldr max 0 + 1

/- ### POST /api/auth/register (final server.js lines 522-549) -/

/-- The registration route: the `validateRequest` middleware checks the
username (required, length 3-50, alphanumeric/underscore) and password
(required, length 3-100); the handler then answers 409 when a user with
the trimmed username already exists and otherwise inserts exactly one
row with role fixed to `'user'`. -/
def register (s : Store) (username password hash : String) : Nat × Store :=
  if requiredFail username then (400, s)
  else if validUsername username = false then (400, s)
  else if requiredFail password then (400, s)
  else if validPassword password = false then (400, s)
  else if s.users.any (fun x => x.username == trimStr username) then (409, s)
  else
    let row : User := ⟨freshUserId s.users, trimStr username, hash, "user"⟩
    (201, { s with users := s.users ++ [row] })

/- ### POST /api/users (final server.js lines 580-613) -/

/-- Admin user creation: same username/password validation as
registration plus a role check, then the same exists-check and insert
with the requested role. -/
def createUser (s : Store) (username password hash role : String) : Nat × Store :=
  if requiredFail username then (400, s)
  else if validUsername username = false then (400, s)
  else if requiredFail password then (400, s)
  else if validPassword password = false then (400, s)
  else if requiredFail role then (400, s)
  else if (role == "admin" || role == "user") = false then (400, s)
  else if s.users.any (fun x => x.username == trimStr username) then (409, s)
  else
    let row : User := ⟨freshUserId s.users, trimStr username, hash, role⟩
    (201, { s with users := s.users ++ [row] })

/- ### DELETE /api/users/:id (final server.js lines 615-629) -/

/-- Admin user deletion: a 400 for the actor's own id, otherwise
`DELETE FROM users WHERE id = $1 AND role != 'admin'`; a zero row count
is answered with 404. -/
def deleteUser (s : Store) (actor target : Nat) : Nat × Store :=
  if target = actor then (400, s)
  else if s.users.any (fun u => u.id == target && u.role != "admin") then
    let remaining := s.users.filter (fun u => !(u.id == target && u.role != "admin"))
    (204, { s with users := remaining })
  else (404, s)

/- ### POST /api/cars and DELETE /api/cars/:id (final server.js 651-684) -/

/-- Characters allowed by `validateLicensePlate` (`^[A-Za-z0-9\s\-]+$`). -/
def isPlateChar (c : Char) : Bool :=
  c.isAlphanum || isWS c || c == '-'

/-- Car creation: plate validation (required, length 1-20, plate
characters) and model validation (required, length 1-50); the insert
stores the trimmed upper-cased plate and trimmed model, and a unique
violation on the plate is translated to 409. -/
def createCar (s : Store) (license_plate model : String) : Nat × Store :=
  if requiredFail license_plate then (400, s)
  else if decide (license_plate.toList.length ≤ 20) = false then (400, s)
  else if license_plate.toList.all isPlateChar = false then (400, s)
  else if requiredFail model then (400, s)
  else if decide (model.toList.length ≤ 50) = false then (400, s)
  else if s.cars.any (fun c => c.license_plate == toUpperStr (trimStr license_plate)) then (409, s)
  else
    let row : Car := ⟨freshCarId s.cars, toUpperStr (trimStr license_plate), trimStr model, true⟩
    (201, { s with cars := s.cars ++ [row] })

/-- Car soft delete: `UPDATE cars SET is_active = FALSE WHERE id = $1`. -/
def deleteCar (s : Store) (cid : Nat) : Nat × Store :=
  let cars := s.cars.map (fun c => if c.id == cid then { c with is_active := false } else c)
  (204, { s with cars := cars })

/- ### POST /api/drivers and DELETE /api/drivers/:id (final server.js 706-734) -/

/-- Characters allowed by `validatePhoneNumber` after an optional
leading plus (`^[\+]?[\d\s\-\(\)]+$`). -/
def isPhoneChar (c : Char) : Bool :=
  c.isDigit || isWS c || c == '-' || c == '(' || c == ')'

/-- The `validatePhoneNumber` regular expression. -/
def validPhone (p : String) : Bool :=
  match p.toList with
  | '+' :: rest => !rest.isEmpty && rest.all isPhoneChar
  | l => !l.isEmpty && l.all isPhoneChar

/-- Driver creation: name validation (required, length 1-100) and, when
a non-empty phone is given, phone validation (length at most 20, phone
characters); the insert stores the trimmed name and the trimmed phone
or `NULL`. -/
def createDriver (s : Store) (name : String) (phone : Option String) : Nat × Store :=
  if requiredFail name then (400, s)
  else if decide (name.toList.length ≤ 100) = false then (400, s)
  else if (match phone with
    | some ph => ph == "" || (decide (ph.toList.length ≤ 20) && validPhone ph)
    | none => true) = false then (400, s)
  else
    let ph : Option String := match phone with
      | some p => if trimStr p == "" then none else some (trimStr p)
      | none => none
    let row : Driver := ⟨freshDriverId s.drivers, trimStr name, ph, true⟩
    (201, { s with drivers := s.drivers ++ [row] })

/-- Driver soft delete: `UPDATE drivers SET is_active = FALSE WHERE id = $1`. -/
def deleteDriver (s : Store) (did : Nat) : Nat × Store :=
  let drivers := s.drivers.map (fun d => if d.id == did then { d with is_active := false } else d)
  (204, { s with drivers := drivers })

/- ### Assignment SQL steps -/

/-- The `SET unassigned_at = $t, unassigned_by = $actor` part of the
close statements. -/
def closeRow (actor t : Nat) (a : Assignment) : Assignment :=
  { a with unassigned_at := some t, unassigned_by := some actor }

/-- One row under
`UPDATE assignments SET unassigned_at = $t, unassigned_by = $actor
WHERE <p> AND unassigned_at IS NULL`. -/
def closeRowIf (p : Assignment → Bool) (actor t : Nat) (a : Assignment) : Assignment :=
  if p a && a.isOpen then closeRow actor t a else a

/-- `UPDATE ... WHERE car_id = $car AND unassigned_at IS NULL`. -/
def closeOpenByCar (actor t car : Nat) (rows : List Assignment) : List Assignment :=
  rows.map (closeRowIf (fun a => a.car_id == car) actor t)

/-- `UPDATE ... WHERE driver_id = $driver AND unassigned_at IS NULL`. -/
def closeOpenByDriver (actor t driver : Nat) (rows : List Assignment) : List Assignment :=
  rows.map (closeRowIf (fun a => a.driver_id == driver) actor t)

/-- The row inserted by
`INSERT INTO assignments (car_id, driver_id, assigned_by, assigned_at)`. -/
def newAssignment (rows : List Assignment) (car driver actor t : Nat) : Assignment :=
  ⟨freshAssignmentId rows, car, driver, actor, t, none, none⟩

/-- `INSERT INTO assignments ...` as a step on the table. -/
def insertAssignment (car driver actor t : Nat) (rows : List Assignment) : List Assignment :=
  rows ++ [newAssignment rows car driver actor t]

/- ### The BEGIN / COMMIT / ROLLBACK transaction -/

/-- Runs the queries of a transaction in order against the working
state, numbering them from `i`; if the query numbered by `failStep`
throws, the `ROLLBACK` discards the working state and restores the
`BEGIN` snapshot (`false` = rolled back). -/
def txGo (snap : List Assignment) (failStep : Option Nat) :
    Nat → List (List Assignment → List Assignment) → List Assignment →
    Bool × List Assignment
  | _, [], cur => (true, cur)
  | i, step :: rest, cur =>
    if failStep = some i then (false, snap) else txGo snap failStep (i + 1) rest (step cur)

/-- `BEGIN`; run the queries; `COMMIT`, or `ROLLBACK` on the first
failure.  `failStep` injects a failure into the numbered query. -/
def txRun (snap : List Assignment) (steps : List (List Assignment → List Assignment))
    (failStep : Option Nat) : Bool × List Assignment :=
  txGo snap failStep 0 steps snap

/- ### POST /api/assignments (final server.js lines 765-818) -/

/-- `SELECT id FROM cars WHERE id = $1 AND is_active = TRUE` is
non-empty. -/
def carActiveExists (s : Store) (car : Nat) : Bool :=
  s.cars.any (fun c => c.id == car && c.is_active)

/-- `SELECT id FROM drivers WHERE id = $1 AND is_active = TRUE` is
non-empty. -/
def driverActiveExists (s : Store) (driver : Nat) : Bool :=
  s.drivers.any (fun d => d.id == driver && d.is_active)

/-- `assignedTime = assigned_at || start_time || new Date()`. -/
def resolveAssignedTime (assigned_at start_time : Option Nat) (now : Nat) : Nat :=
  assigned_at.getD (start_time.getD now)

/-- The assignment-creation route of the final iteration:
`validateRequest` requires `car_id` and `driver_id` (a falsy `0` fails
the `required` check with 400); the handler answers 404 when the car or
the driver is missing or inactive, and otherwise runs close-by-car,
close-by-driver and the insert inside one `BEGIN`/`COMMIT` transaction,
rolled back (500) if any query fails.  The closes stamp `NOW()`
(`now`); the insert uses the resolved `assignedTime`. -/
def createAssignment (s : Store) (actor car driver : Nat)
    (assigned_at start_time : Option Nat) (now : Nat) (failStep : Option Nat) :
    Nat × Store :=
  if car = 0 ∨ driver = 0 then (400, s)
  else if carActiveExists s car = false then (404, s)
  else if driverActiveExists s driver = false then (404, s)
  else
    match txRun s.assignments
      [closeOpenByCar actor now car, closeOpenByDriver actor now driver,
       insertAssignment car driver actor (resolveAssignedTime assigned_at start_time now)]
      failStep with
    | (true, rows) => (201, { s with assignments := rows })
    | (false, _) => (500, s)

/- ### POST /api/assignments/unassign (final server.js lines 821-836) -/

/-- Unassign by car: a falsy `car_id` is a 400; otherwise
`UPDATE assignments SET unassigned_at = $1, unassigned_by = $2
WHERE car_id = $3 AND unassigned_at IS NULL` with
`$1 = unassigned_at || new Date()`. -/
def unassignByCar (s : Store) (actor car : Nat) (unassigned_at : Option Nat)
    (now : Nat) : Nat × Store :=
  if car = 0 then (400, s)
  else
    let rows := closeOpenByCar actor (unassigned_at.getD now) car s.assignments
    (200, { s with assignments := rows })

/- ### PUT /api/assignments/:id (final server.js lines 839-851) -/

/-- One row under `UPDATE assignments SET unassigned_at = $1,
unassigned_by = $2 WHERE id = $3` — note: no `unassigned_at IS NULL`
guard, so an already-closed row with this id is overwritten too. -/
def closeRowById (actor t aid : Nat) (a : Assignment) : Assignment :=
  if a.id == aid then closeRow actor t a else a

/-- End an assignment by id, with `$1 = end_time || new Date()`. -/
def endAssignmentById (s : Store) (actor aid : Nat) (end_time : Option Nat)
    (now : Nat) : Nat × Store :=
  let rows := s.assignments.map (closeRowById actor (end_time.getD now) aid)
  (200, { s with assignments := rows })

/- ### GET /api/assignments and GET /api/stats (final server.js 737-762, 552-567) -/

/-- The display columns joined onto an assignment row by the
`GET /api/assignments` query (`LEFT JOIN` on cars, drivers and twice on
users). -/
structure AssignmentView where
  row : Assignment
  license_plate : Option String
  driver_name : Option String
  assigned_by_name : Option String
  unassigned_by_name : Option String
deriving Repr, DecidableEq

/-- `LEFT JOIN cars c ON a.car_id = c.id` projected to the plate. -/
def lookupCarPlate (cars : List Car) (cid : Nat) : Option String :=
  (cars.find? (fun c => c.id == cid)).map Car.license_plate

/-- `LEFT JOIN drivers d ON a.driver_id = d.id` projected to the name. -/
def lookupDriverName (drivers : List Driver) (did : Nat) : Option String :=
  (drivers.find? (fun d => d.id == did)).map Driver.name

/-- `LEFT JOIN users u ON <uid> = u.id` projected to the username. -/
def lookupUsername (users : List User) (uid : Option Nat) : Option String :=
  uid.bind (fun u => (users.find? (fun x => x.id == u)).map User.username)

/-- The joined row produced by the listing query. -/
def toView (s : Store) (a : Assignment) : AssignmentView :=
  ⟨a, lookupCarPlate s.cars a.car_id, lookupDriverName s.drivers a.driver_id,
    lookupUsername s.users (some a.assigned_by), lookupUsername s.users a.unassigned_by⟩

/-- `ORDER BY a.id DESC`. -/
def idDescRel (x y : Assignment) : Prop :=
  y.id ≤ x.id

instance : DecidableRel idDescRel :=
  fun x y => Nat.decLe y.id x.id

instance : IsTotal Assignment idDescRel :=
  ⟨fun x y => Nat.le_total y.id x.id⟩

instance : IsTrans Assignment idDescRel :=
  ⟨fun _ _ _ h1 h2 => Nat.le_trans h2 h1⟩

/-- The `GET /api/assignments` route of the final iteration: ALL
assignment rows — open and closed — joined with display columns,
`ORDER BY a.id DESC`. -/
def listAssignments (s : Store) : List AssignmentView :=
  (List.insertionSort idDescRel s.assignments).map (toView s)

/-- The `GET /api/stats` route: counts of active cars, active drivers
and open assignments. -/
def stats (s : Store) : Nat × Nat × Nat :=
  (s.cars.countP (fun c => c.is_active),
   s.drivers.countP (fun d => d.is_active),
   s.assignments.countP (fun a => a.isOpen))

/- ### Operation sequences -/

/-- The assignment-lifecycle operations of §4.2: `createAssignment`
(`POST /api/assignments`) and the two `endAssignment` forms
(`POST /api/assignments/unassign` and `PUT /api/assignments/:id`). -/
inductive FleetOp where
  | createA (actor car driver : Nat) (assigned_at start_time : Option Nat)
      (now : Nat) (failStep : Option Nat)
  | unassignCar (actor car : Nat) (unassigned_at : Option Nat) (now : Nat)
  | endById (actor aid : Nat) (end_time : Option Nat) (now : Nat)
deriving Repr, DecidableEq

/-- The store after one lifecycle call. -/
def applyFleetOp (s : Store) (op : FleetOp) : Store :=
  match op with
  | .createA actor car driver aat st now failStep =>
    (createAssignment s actor car driver aat st now failStep).2
  | .unassignCar actor car uat now => (unassignByCar s actor car uat now).2
  | .endById actor aid et now => (endAssignmentById s actor aid et now).2

/-- The store after a sequence of lifecycle calls executed one at a
time. -/
def applyFleetOps (s : Store) (ops : List FleetOp) : Store :=
  ops.foldl applyFleetOp s

/-- Every state-changing route of the public HTTP interface. -/
inductive ApiOp where
  | registerU (username password hash : String)
  | createU (username password hash role : String)
  | deleteU (actor target : Nat)
  | createC (license_plate model : String)
  | deleteC (cid : Nat)
  | createD (name : String) (phone : Option String)
  | deleteD (did : Nat)
  | createA (actor car driver : Nat) (assigned_at start_time : Option Nat)
      (now : Nat) (failStep : Option Nat)
  | unassignCar (actor car : Nat) (unassigned_at : Option Nat) (now : Nat)
  | endById (actor aid : Nat) (end_time : Option Nat) (now : Nat)
deriving Repr, DecidableEq

/-- The store after one call of the public interface. -/
def applyApiOp (s : Store) (op : ApiOp) : Store :=
  match op with
  | .registerU u p h => (register s u p h).2
  | .createU u p h r => (createUser s u p h r).2
  | .deleteU actor target => (deleteUser s actor target).2
  | .createC plate m => (createCar s plate m).2
  | .deleteC cid => (deleteCar s cid).2
  | .createD n ph => (createDriver s n ph).2
  | .deleteD did => (deleteDriver s did).2
  | .createA actor car driver aat st now failStep =>
    (createAssignment s actor car driver aat st now failStep).2
  | .unassignCar actor car uat now => (unassignByCar s actor car uat now).2
  | .endById actor aid et now => (endAssignmentById s actor aid et now).2

/-- Whether the call is the unguarded `PUT /api/assignments/:id`. -/
def ApiOp.isEndById : ApiOp → Bool
  | .endById _ _ _ _ => true
  | _ => false

/- ### The one-open-assignment invariant -/

/-- Two assignment rows do not both hold a car or a driver: when both
are open they name different cars and different drivers. -/
def noClash (a b : Assignment) : Prop :=
  a.unassigned_at = none → b.unassigned_at = none →
    a.car_id ≠ b.car_id ∧ a.driver_id ≠ b.driver_id

/-- The spec's invariant: no `car_id` and no `driver_id` occurs in two
rows with `unassigned_at = NULL`. -/
def OpenPairwise (rows : List Assignment) : Prop :=
  rows.Pairwise noClash

/-- The clash relation is symmetric. -/
theorem noClash_symm : Symmetric noClash := by
  intro a b h hb ha
  rcases h ha hb with ⟨h1, h2⟩
  exact ⟨h1.symm, h2.symm⟩

/- ### Elementwise facts about the close steps -/

theorem closeRowIf_id (p : Assignment → Bool) (actor t : Nat) (a : Assignment) :
    (closeRowIf p actor t a).id = a.id := by
  unfold closeRowIf closeRow
  split <;> rfl

theorem closeRowIf_car_id (p : Assignment → Bool) (actor t : Nat) (a : Assignment) :
    (closeRowIf p actor t a).car_id = a.car_id := by
  unfold closeRowIf closeRow
  split <;> rfl

theorem closeRowIf_driver_id (p : Assignment → Bool) (actor t : Nat) (a : Assignment) :
    (closeRowIf p actor t a).driver_id = a.driver_id := by
  unfold closeRowIf closeRow
  split <;> rfl

theorem closeRowIf_assigned_by (p : Assignment → Bool) (actor t : Nat) (a : Assignment) :
    (closeRowIf p actor t a).assigned_by = a.assigned_by := by
  unfold closeRowIf closeRow
  split <;> rfl

theorem closeRowIf_assigned_at (p : Assignment → Bool) (actor t : Nat) (a : Assignment) :
    (closeRowIf p actor t a).assigned_at = a.assigned_at := by
  unfold closeRowIf closeRow
  split <;> rfl

/-- A closed row is untouched by the guarded close statements. -/
theorem closeRowIf_of_closed (p : Assignment → Bool) (actor t : Nat) (a : Assignment)
    (h : a.unassigned_at ≠ none) : closeRowIf p actor t a = a := by
  unfold closeRowIf
  have : a.isOpen = false := by
    unfold Assignment.isOpen
    cases ha : a.unassigned_at with
    | none => exact absurd ha h
    | some _ => rfl
  simp [this]

/-- The image of a row under a guarded close is open iff the row was
open and did not match the `WHERE` clause. -/
theorem closeRowIf_open_iff (p : Assignment → Bool) (actor t : Nat) (a : Assignment) :
    (closeRowIf p actor t a).unassigned_at = none ↔
      a.unassigned_at = none ∧ p a = false := by
  unfold closeRowIf closeRow Assignment.isOpen
  rcases ha : a.unassigned_at with _ | u
  · rcases hp : p a <;> simp [hp, ha]
  · rcases hp : p a <;> simp [hp, ha]

/-- A row matched open by a guarded close comes out closed with the
statement's stamp. -/
theorem closeRowIf_of_match (p : Assignment → Bool) (actor t : Nat) (a : Assignment)
    (hopen : a.unassigned_at = none) (hp : p a = true) :
    closeRowIf p actor t a = closeRow actor t a := by
  unfold closeRowIf Assignment.isOpen
  simp [hp, hopen]

theorem closeRowById_id (actor t aid : Nat) (a : Assignment) :
    (closeRowById actor t aid a).id = a.id := by
  unfold closeRowById closeRow
  split <;> rfl

theorem closeRowById_car_id (actor t aid : Nat) (a : Assignment) :
    (closeRowById actor t aid a).car_id = a.car_id := by
  unfold closeRowById closeRow
  split <;> rfl

theorem closeRowById_driver_id (actor t aid : Nat) (a : Assignment) :
    (closeRowById actor t aid a).driver_id = a.driver_id := by
  unfold closeRowById closeRow
  split <;> rfl

theorem closeRowById_assigned_by (actor t aid : Nat) (a : Assignment) :
    (closeRowById actor t aid a).assigned_by = a.assigned_by := by
  unfold closeRowById closeRow
  split <;> rfl

theorem closeRowById_assigned_at (actor t aid : Nat) (a : Assignment) :
    (closeRowById actor t aid a).assigned_at = a.assigned_at := by
  unfold closeRowById closeRow
  split <;> rfl

/-- The unguarded by-id update never reopens a row. -/
theorem closeRowById_open (actor t aid : Nat) (a : Assignment)
    (h : (closeRowById actor t aid a).unassigned_at = none) :
    a.unassigned_at = none := by
  unfold closeRowById closeRow at h
  by_cases hid : (a.id == aid) = true
  · simp [hid] at h
  · simp [hid] at h
    exact h

/- ### Generic list lemmas -/

/-- A map that fixes every element of a list fixes the list. -/
theorem map_eq_self_of_forall {α : Type} (f : α → α) :
    ∀ l : List α, (∀ a ∈ l, f a = a) → l.map f = l := by
  intro l
  induction l with
  | nil => intro _; rfl
  | cons a l ih =>
    intro h
    simp only [List.map_cons]
    rw [h a (List.mem_cons_self a l), ih (fun b hb => h b (List.mem_cons_of_mem a hb))]

/-- Mapping an idempotent function twice is mapping it once. -/
theorem map_map_of_idem {α : Type} (f : α → α) (hf : ∀ a, f (f a) = f a)
    (l : List α) : (l.map f).map f = l.map f := by
  rw [List.map_map]
  exact List.map_congr_left (fun a _ => hf a)

/-- A list whose elements all refute a predicate has `countP` zero. -/
theorem countP_zero_of_forall {α : Type} (p : α → Bool) (l : List α)
    (h : ∀ a ∈ l, p a = false) : l.countP p = 0 := by
  rw [List.countP_eq_zero]
  intro a ha
  simp [h a ha]

/- ### The transaction runs completely or not at all -/

/-- Either the transaction rolled back to its snapshot, or it committed
the left fold of all its queries. -/
theorem txGo_all_or_nothing (snap : List Assignment) (failStep : Option Nat) :
    ∀ (steps : List (List Assignment → List Assignment)) (i : Nat)
      (cur : List Assignment),
      txGo snap failStep i steps cur = (false, snap) ∨
      txGo snap failStep i steps cur = (true, steps.foldl (fun c st => st c) cur) := by
  intro steps
  induction steps with
  | nil => intro i cur; right; rfl
  | cons st rest ih =>
    intro i cur
    unfold txGo
    by_cases h : failStep = some i
    · left; simp [h]
    · simp only [if_neg h, List.foldl_cons]
      exact ih (i + 1) (st cur)

/-- With no failure injected the transaction commits the fold. -/
theorem txGo_none (snap : List Assignment) :
    ∀ (steps : List (List Assignment → List Assignment)) (i : Nat)
      (cur : List Assignment),
      txGo snap none i steps cur = (true, steps.foldl (fun c st => st c) cur) := by
  intro steps
  induction steps with
  | nil => intro i cur; rfl
  | cons st rest ih =>
    intro i cur
    unfold txGo
    simp only [if_neg (by simp : (none : Option Nat) ≠ some i), List.foldl_cons]
    exact ih (i + 1) (st cur)

/-- A failure injected at a query the transaction reaches rolls it
back. -/
theorem txGo_fail (snap : List Assignment) (k : Nat) :
    ∀ (steps : List (List Assignment → List Assignment)) (i : Nat)
      (cur : List Assignment), i ≤ k → k < i + steps.length →
      txGo snap (some k) i steps cur = (false, snap) := by
  intro steps
  induction steps with
  | nil =>
    intro i cur hik hk
    simp at hk
    omega
  | cons st rest ih =>
    intro i cur hik hk
    unfold txGo
    by_cases h : (some k : Option Nat) = some i
    · simp [h]
    · have hne : k ≠ i := by
        intro he
        exact h (by rw [he])
      simp only [if_neg h]
      refine ih (i + 1) (st cur) (by omega) ?_
      simp at hk
      omega

/- ### Preservation of the invariant -/

/-- Mapping a function that never opens a row and preserves its car and
driver preserves the invariant. -/
theorem openPairwise_map (g : Assignment → Assignment)
    (hopen : ∀ a, (g a).unassigned_at = none → a.unassigned_at = none)
    (hcar : ∀ a, (g a).car_id = a.car_id)
    (hdrv : ∀ a, (g a).driver_id = a.driver_id)
    (l : List Assignment) (h : OpenPairwise l) : OpenPairwise (l.map g) := by
  refine List.Pairwise.map g ?_ h
  intro a b hab hga hgb
  rcases hab (hopen a hga) (hopen b hgb) with ⟨h1, h2⟩
  constructor
  · rw [hcar a, hcar b]; exact h1
  · rw [hdrv a, hdrv b]; exact h2

/-- The guarded close statements preserve the invariant. -/
theorem openPairwise_closeOpen (p : Assignment → Bool) (actor t : Nat)
    (l : List Assignment) (h : OpenPairwise l) :
    OpenPairwise (l.map (closeRowIf p actor t)) := by
  refine openPairwise_map _ ?_ ?_ ?_ l h
  · intro a ha
    exact ((closeRowIf_open_iff p actor t a).mp ha).1
  · intro a; exact closeRowIf_car_id p actor t a
  · intro a; exact closeRowIf_driver_id p actor t a

/-- The unguarded by-id update preserves the invariant. -/
theorem openPairwise_closeById (actor t aid : Nat)
    (l : List Assignment) (h : OpenPairwise l) :
    OpenPairwise (l.map (closeRowById actor t aid)) := by
  refine openPairwise_map _ ?_ ?_ ?_ l h
  · intro a ha; exact closeRowById_open actor t aid a ha
  · intro a; exact closeRowById_car_id actor t aid a
  · intro a; exact closeRowById_driver_id actor t aid a

/-- After the two close steps of `createAssignment`, any still-open row
names neither the requested car nor the requested driver. -/
theorem close2_mem_open (actor now car driver : Nat) (rows : List Assignment)
    (b : Assignment)
    (hb : b ∈ closeOpenByDriver actor now driver (closeOpenByCar actor now car rows))
    (hopen : b.unassigned_at = none) :
    b.car_id ≠ car ∧ b.driver_id ≠ driver := by
  unfold closeOpenByDriver closeOpenByCar at hb
  rw [List.map_map] at hb
  rcases List.mem_map.mp hb with ⟨a, _, rfl⟩
  simp only [Function.comp_apply] at hopen ⊢
  have h2 := (closeRowIf_open_iff (fun x => x.driver_id == driver) actor now
    (closeRowIf (fun x => x.car_id == car) actor now a)).mp hopen
  have h1 := (closeRowIf_open_iff (fun x => x.car_id == car) actor now a).mp h2.1
  constructor
  · rw [closeRowIf_car_id, closeRowIf_car_id]
    intro he
    rw [he] at h1
    simp at h1
  · rw [closeRowIf_driver_id]
    intro he
    rw [he] at h2
    simp at h2

/-- A successful `createAssignment` commit preserves the invariant: the
closes zero out the open rows for the car and the driver, and the one
inserted row is open. -/
theorem openPairwise_create_commit (actor now car driver t : Nat)
    (rows : List Assignment) (h : OpenPairwise rows) :
    OpenPairwise (insertAssignment car driver actor t
      (closeOpenByDriver actor now driver (closeOpenByCar actor now car rows))) := by
  unfold insertAssignment
  set rows2 := closeOpenByDriver actor now driver (closeOpenByCar actor now car rows)
    with hrows2
  have h2 : OpenPairwise rows2 := by
    rw [hrows2]
    unfold closeOpenByDriver
    refine openPairwise_closeOpen _ actor now _ ?_
    unfold closeOpenByCar
    exact openPairwise_closeOpen _ actor now rows h
  refine List.pairwise_append.mpr ⟨h2, List.pairwise_singleton _ _, ?_⟩
  intro a ha b hb
  have hbeq : b = newAssignment rows2 car driver actor t := by
    simpa using hb
  subst hbeq
  intro haopen _
  have := close2_mem_open actor now car driver rows a (hrows2 ▸ ha) haopen
  unfold newAssignment
  exact this

/-- One lifecycle call preserves the invariant. -/
theorem openPairwise_applyFleetOp (s : Store) (op : FleetOp)
    (h : OpenPairwise s.assignments) :
    OpenPairwise (applyFleetOp s op).assignments := by
  cases op with
  | createA actor car driver aat st now failStep =>
    unfold applyFleetOp createAssignment
    by_cases h0 : car = 0 ∨ driver = 0
    · simp only [if_pos h0]; exact h
    · simp only [if_neg h0]
      by_cases hc : carActiveExists s car = false
      · simp only [if_pos hc]; exact h
      · simp only [if_neg hc]
        by_cases hd : driverActiveExists s driver = false
        · simp only [if_pos hd]; exact h
        · simp only [if_neg hd]
          unfold txRun
          rcases txGo_all_or_nothing s.assignments failStep
              [closeOpenByCar actor now car, closeOpenByDriver actor now driver,
               insertAssignment car driver actor
                 (resolveAssignedTime aat st now)] 0 s.assignments with heq | heq
          · rw [heq]; exact h
          · rw [heq]
            simp only [List.foldl_cons, List.foldl_nil]
            exact openPairwise_create_commit actor now car driver
              (resolveAssignedTime aat st now) s.assignments h
  | unassignCar actor car uat now =>
    unfold applyFleetOp unassignByCar
    by_cases h0 : car = 0
    · simp only [if_pos h0]; exact h
    · simp only [if_neg h0]
      exact openPairwise_closeOpen _ actor (uat.getD now) s.assignments h
  | endById actor aid et now =>
    unfold applyFleetOp endAssignmentById
    exact openPairwise_closeById actor (et.getD now) aid s.assignments h

/- ### Claim C1 -/

/-- C1: starting from a store in which each `car_id` and each
`driver_id` occurs in at most one open (`unassigned_at = NULL`)
assignment row, after every sequence of `createAssignment` and
`endAssignment` calls executed one at a time, each `car_id` and each
`driver_id` still occurs in at most one open assignment row. -/
theorem assignment_invariant_preserved (s : Store) (ops : List FleetOp)
    (h : OpenPairwise s.assignments) :
    OpenPairwise (applyFleetOps s ops).assignments := by
  induction ops generalizing s with
  | nil => exact h
  | cons op rest ih =>
    unfold applyFleetOps
    simp only [List.foldl_cons]
    exact ih (applyFleetOp s op) (openPairwise_applyFleetOp s op h)

/-- C1 witness: a concrete store (one open assignment) and a concrete
call sequence — a reassignment, an unassign-by-car and an end-by-id. -/
theorem assignment_invariant_preserved_witness :
    OpenPairwise (Store.mk [⟨1, "admin", "h", "admin"⟩]
        [⟨1, "ABC-1", "Van", true⟩, ⟨2, "XYZ-2", "Bus", true⟩]
        [⟨1, "Alice", none, true⟩, ⟨2, "Bob", none, true⟩]
        [⟨1, 1, 1, 1, 0, none, none⟩]).assignments ∧
    OpenPairwise (applyFleetOps
      (Store.mk [⟨1, "admin", "h", "admin"⟩]
        [⟨1, "ABC-1", "Van", true⟩, ⟨2, "XYZ-2", "Bus", true⟩]
        [⟨1, "Alice", none, true⟩, ⟨2, "Bob", none, true⟩]
        [⟨1, 1, 1, 1, 0, none, none⟩])
      [FleetOp.createA 1 1 2 none none 5 none,
       FleetOp.unassignCar 1 1 none 6,
       FleetOp.endById 1 1 none 7]).assignments :=
  ⟨List.pairwise_singleton _ _,
   assignment_invariant_preserved _ _ (List.pairwise_singleton _ _)⟩

/- ### Claim C2 -/

/-- C2 counterexample: `car_id = 0` references no active car, yet the
call is rejected by the `required` validation with 400 InvalidInput,
not with 404 NotFound as the claim states (JavaScript treats the
number 0 as falsy). -/
theorem createAssignment_zero_id_not_404 :
    (createAssignment (Store.mk [] [] [] []) 1 0 1 none none 5 none).1 = 400 ∧
    (createAssignment (Store.mk [] [] [] []) 1 0 1 none none 5 none).1 ≠ 404 := by
  constructor
  · rfl
  · decide

/-- C2 as amended: a falsy (`0` or absent) `car_id` or `driver_id` is
rejected with 400 by the validation middleware; otherwise a `car_id`
that does not reference an active car, or a `driver_id` that does not
reference an active driver, makes the call fail with 404 NotFound; in
both cases the store is returned unchanged — no assignment row is
closed or inserted. -/
theorem createAssignment_precondition_failures (s : Store) (actor car driver : Nat)
    (aat st : Option Nat) (now : Nat) (failStep : Option Nat) :
    (car = 0 ∨ driver = 0 →
      createAssignment s actor car driver aat st now failStep = (400, s)) ∧
    (car ≠ 0 → driver ≠ 0 →
      carActiveExists s car = false ∨ driverActiveExists s driver = false →
      createAssignment s actor car driver aat st now failStep = (404, s)) := by
  constructor
  · intro h0
    unfold createAssignment
    rw [if_pos h0]
  · intro hc hd hin
    unfold createAssignment
    have h0 : ¬(car = 0 ∨ driver = 0) := by
      intro h
      rcases h with h | h
      · exact hc h
      · exact hd h
    rw [if_neg h0]
    rcases hin with h | h
    · rw [if_pos h]
    · by_cases hc2 : carActiveExists s car = false
      · rw [if_pos hc2]
      · rw [if_neg hc2, if_pos h]

/-- C2 witness: an inactive car makes the call fail with 404 and leave
the store unchanged. -/
theorem createAssignment_precondition_failures_witness :
    createAssignment (Store.mk [] [⟨1, "ABC", "Van", false⟩] [] []) 1 1 1 none none 5 none
      = (404, Store.mk [] [⟨1, "ABC", "Van", false⟩] [] []) :=
  (createAssignment_precondition_failures _ 1 1 1 none none 5 none).2
    (by decide) (by decide) (Or.inl (by decide))

/- ### Claim C3 -/

/-- The store state a committed `createAssignment` transaction leaves
behind: close-by-car, then close-by-driver, then the insert. -/
def createCommitState (s : Store) (actor car driver t now : Nat) : Store :=
  let rows := insertAssignment car driver actor t
    (closeOpenByDriver actor now driver (closeOpenByCar actor now car s.assignments))
  { s with assignments := rows }

/-- C3: `createAssignment` is atomic.  Every call either leaves the
store exactly as it was and reports an error (400, 404, or 500), or
reports 201 and applies all three steps — never a partial close without
the insert.  Moreover a query failure injected into any of the three
transaction steps of an otherwise valid call is surfaced as 500 with
the store rolled back unchanged. -/
theorem createAssignment_atomic (s : Store) (actor car driver : Nat)
    (aat st : Option Nat) (now : Nat) (failStep : Option Nat) :
    (((createAssignment s actor car driver aat st now failStep).2 = s ∧
      ((createAssignment s actor car driver aat st now failStep).1 = 400 ∨
       (createAssignment s actor car driver aat st now failStep).1 = 404 ∨
       (createAssignment s actor car driver aat st now failStep).1 = 500)) ∨
     ((createAssignment s actor car driver aat st now failStep).1 = 201 ∧
      (createAssignment s actor car driver aat st now failStep).2 =
        createCommitState s actor car driver (resolveAssignedTime aat st now) now)) ∧
    (∀ k, car ≠ 0 → driver ≠ 0 → carActiveExists s car = true →
      driverActiveExists s driver = true → failStep = some k → k < 3 →
      createAssignment s actor car driver aat st now failStep = (500, s)) := by
  constructor
  · unfold createAssignment
    by_cases h0 : car = 0 ∨ driver = 0
    · rw [if_pos h0]
      exact Or.inl ⟨rfl, Or.inl rfl⟩
    · rw [if_neg h0]
      by_cases hc : carActiveExists s car = false
      · rw [if_pos hc]
        exact Or.inl ⟨rfl, Or.inr (Or.inl rfl)⟩
      · rw [if_neg hc]
        by_cases hd : driverActiveExists s driver = false
        · rw [if_pos hd]
          exact Or.inl ⟨rfl, Or.inr (Or.inl rfl)⟩
        · rw [if_neg hd]
          unfold txRun
          rcases txGo_all_or_nothing s.assignments failStep
              [closeOpenByCar actor now car, closeOpenByDriver actor now driver,
               insertAssignment car driver actor (resolveAssignedTime aat st now)]
              0 s.assignments with heq | heq
          · rw [heq]
            exact Or.inl ⟨rfl, Or.inr (Or.inr rfl)⟩
          · rw [heq]
            refine Or.inr ⟨rfl, ?_⟩
            unfold createCommitState
            simp only [List.foldl_cons, List.foldl_nil]
  · intro k hc0 hd0 hca hda hfs hk3
    unfold createAssignment
    rw [if_neg (by
      intro h
      rcases h with h | h
      · exact hc0 h
      · exact hd0 h)]
    rw [if_neg (by rw [hca]; exact fun h => by cases h)]
    rw [if_neg (by rw [hda]; exact fun h => by cases h)]
    unfold txRun
    rw [hfs, txGo_fail s.assignments k
      [closeOpenByCar actor now car, closeOpenByDriver actor now driver,
       insertAssignment car driver actor (resolveAssignedTime aat st now)]
      0 s.assignments (Nat.zero_le k) (by simpa using hk3)]

/-- C3 witness: with an active car and driver, a failure injected into
the second transaction step (the close-by-driver query) yields 500 and
the untouched store. -/
theorem createAssignment_atomic_witness :
    createAssignment
      (Store.mk [] [⟨1, "ABC", "Van", true⟩] [⟨1, "Alice", none, true⟩]
        [⟨1, 1, 1, 1, 0, none, none⟩]) 1 1 1 none none 5 (some 1)
      = (500, Store.mk [] [⟨1, "ABC", "Van", true⟩] [⟨1, "Alice", none, true⟩]
        [⟨1, 1, 1, 1, 0, none, none⟩]) :=
  (createAssignment_atomic _ 1 1 1 none none 5 (some 1)).2 1
    (by decide) (by decide) (by decide) (by decide) rfl (by decide)

/- ### Claim C4 -/

/-- A row that does not match the `WHERE` clause is untouched by a
guarded close. -/
theorem closeRowIf_of_notmatch (p : Assignment → Bool) (actor t : Nat)
    (a : Assignment) (hp : p a = false) : closeRowIf p actor t a = a := by
  unfold closeRowIf
  simp [hp]

/-- A valid `createAssignment` call with no failure injected commits
and answers 201. -/
theorem createAssignment_success (s : Store) (actor car driver : Nat)
    (aat st : Option Nat) (now : Nat)
    (hc0 : car ≠ 0) (hd0 : driver ≠ 0)
    (hca : carActiveExists s car = true) (hda : driverActiveExists s driver = true) :
    createAssignment s actor car driver aat st now none =
      (201, createCommitState s actor car driver (resolveAssignedTime aat st now) now) := by
  unfold createAssignment
  rw [if_neg (by
    intro h
    rcases h with h | h
    · exact hc0 h
    · exact hd0 h)]
  rw [if_neg (by rw [hca]; exact fun h => by cases h)]
  rw [if_neg (by rw [hda]; exact fun h => by cases h)]
  unfold txRun
  rw [txGo_none s.assignments
    [closeOpenByCar actor now car, closeOpenByDriver actor now driver,
     insertAssignment car driver actor (resolveAssignedTime aat st now)] 0 s.assignments]
  unfold createCommitState
  simp only [List.foldl_cons, List.foldl_nil]

/-- C4 as amended: on an invariant-satisfying store where the car is
openly assigned to some driver `X` other than the driver being
assigned, a successful `createAssignment(car, driver, actor)` closes
every previously open row matching the car or the driver (stamping
`unassigned_by = actor`), leaves `X` with no open assignment, and
leaves exactly one open row
`{car_id, driver_id, assigned_by = actor, assigned_at = provided-or-now}`. -/
theorem createAssignment_reassigns (s : Store) (actor car driver X : Nat)
    (aat st : Option Nat) (now : Nat)
    (hInv : OpenPairwise s.assignments)
    (hc0 : car ≠ 0) (hd0 : driver ≠ 0)
    (hca : carActiveExists s car = true) (hda : driverActiveExists s driver = true)
    (r : Assignment) (hr : r ∈ s.assignments) (hrcar : r.car_id = car)
    (hrdrv : r.driver_id = X) (hropen : r.unassigned_at = none) (hXY : X ≠ driver) :
    (createAssignment s actor car driver aat st now none).1 = 201 ∧
    (∀ a ∈ s.assignments, a.unassigned_at = none →
      a.car_id = car ∨ a.driver_id = driver →
      ∃ b ∈ (createAssignment s actor car driver aat st now none).2.assignments,
        b.id = a.id ∧ b.car_id = a.car_id ∧ b.driver_id = a.driver_id ∧
        b.assigned_at = a.assigned_at ∧
        b.unassigned_at = some now ∧ b.unassigned_by = some actor) ∧
    (∀ b ∈ (createAssignment s actor car driver aat st now none).2.assignments,
      b.driver_id = X → b.unassigned_at ≠ none) ∧
    (createAssignment s actor car driver aat st now none).2.assignments.countP
      (fun b => b.isOpen && b.car_id == car && b.driver_id == driver &&
        b.assigned_by == actor &&
        b.assigned_at == resolveAssignedTime aat st now) = 1 := by
  rw [createAssignment_success s actor car driver aat st now hc0 hd0 hca hda]
  refine ⟨rfl, ?_, ?_, ?_⟩
  · intro a ha haopen hmatch
    refine ⟨closeRowIf (fun x => x.driver_id == driver) actor now
      (closeRowIf (fun x => x.car_id == car) actor now a), ?_, ?_⟩
    · unfold createCommitState insertAssignment closeOpenByDriver closeOpenByCar
      refine List.mem_append_left _ ?_
      exact List.mem_map_of_mem _ (List.mem_map_of_mem _ ha)
    · refine ⟨?_, ?_, ?_, ?_, ?_⟩
      · rw [closeRowIf_id, closeRowIf_id]
      · rw [closeRowIf_car_id, closeRowIf_car_id]
      · rw [closeRowIf_driver_id, closeRowIf_driver_id]
      · rw [closeRowIf_assigned_at, closeRowIf_assigned_at]
      · by_cases hcar : a.car_id = car
        · rw [closeRowIf_of_match (fun x => x.car_id == car) actor now a haopen
            (by simp [hcar])]
          rw [closeRowIf_of_closed (fun x => x.driver_id == driver) actor now _
            (by unfold closeRow; simp)]
          unfold closeRow
          exact ⟨rfl, rfl⟩
        · have hdrv : a.driver_id = driver := by
            rcases hmatch with h | h
            · exact absurd h hcar
            · exact h
          rw [closeRowIf_of_notmatch (fun x => x.car_id == car) actor now a
            (by simp [hcar])]
          rw [closeRowIf_of_match (fun x => x.driver_id == driver) actor now a haopen
            (by simp [hdrv])]
          unfold closeRow
          exact ⟨rfl, rfl⟩
  · intro b hb hbX hbopen
    unfold createCommitState insertAssignment at hb
    rcases List.mem_append.mp hb with hb2 | hb2
    · have hnc := close2_mem_open actor now car driver s.assignments b hb2 hbopen
      unfold closeOpenByDriver closeOpenByCar at hb2
      rw [List.map_map] at hb2
      rcases List.mem_map.mp hb2 with ⟨a, ha, hab⟩
      have hab2 : closeRowIf (fun x => x.driver_id == driver) actor now
          (closeRowIf (fun x => x.car_id == car) actor now a) = b := hab
      have haopen : a.unassigned_at = none := by
        have h2 := (closeRowIf_open_iff (fun x => x.driver_id == driver) actor now
          (closeRowIf (fun x => x.car_id == car) actor now a)).mp
          (by rw [hab2]; exact hbopen)
        exact ((closeRowIf_open_iff (fun x => x.car_id == car) actor now a).mp h2.1).1
      have hadrv : a.driver_id = X := by
        have : b.driver_id = a.driver_id := by
          rw [← hab2, closeRowIf_driver_id, closeRowIf_driver_id]
        rw [← hbX, this]
      have hacar : a.car_id ≠ car := by
        have : b.car_id = a.car_id := by
          rw [← hab2, closeRowIf_car_id, closeRowIf_car_id]
        rw [← this]
        exact hnc.1
      have hane : a ≠ r := by
        intro he
        rw [he] at hacar
        exact hacar hrcar
      have := (hInv.forall noClash_symm) ha hr hane haopen hropen
      rw [hadrv, hrdrv] at this
      exact this.2 rfl
    · have : b = newAssignment
          (closeOpenByDriver actor now driver (closeOpenByCar actor now car s.assignments))
          car driver actor (resolveAssignedTime aat st now) := by
        simpa using hb2
      rw [this] at hbX
      exact hXY (by simpa [newAssignment] using hbX.symm)
  · unfold createCommitState insertAssignment
    rw [List.countP_append]
    have h0 : (closeOpenByDriver actor now driver
        (closeOpenByCar actor now car s.assignments)).countP
        (fun b => b.isOpen && b.car_id == car && b.driver_id == driver &&
          b.assigned_by == actor &&
          b.assigned_at == resolveAssignedTime aat st now) = 0 := by
      refine countP_zero_of_forall _ _ ?_
      intro b hb
      by_cases hbo : b.isOpen = true
      · have hbopen : b.unassigned_at = none := by
          unfold Assignment.isOpen at hbo
          exact Option.isNone_iff_eq_none.mp hbo
        have := (close2_mem_open actor now car driver s.assignments b hb hbopen).1
        simp [this]
      · simp only [Bool.not_eq_true] at hbo
        simp [hbo]
    rw [h0]
    simp [newAssignment, Assignment.isOpen]

/-- C4 witness: car 1 openly assigned to driver 1; assigning car 1 to
driver 2 succeeds and leaves exactly one open row for (car 1, driver
2). -/
theorem createAssignment_reassigns_witness :
    (createAssignment (Store.mk [] [⟨1, "A", "M", true⟩]
      [⟨1, "Alice", none, true⟩, ⟨2, "Bob", none, true⟩]
      [⟨1, 1, 1, 7, 0, none, none⟩]) 7 1 2 none none 5 none).1 = 201 ∧
    (createAssignment (Store.mk [] [⟨1, "A", "M", true⟩]
      [⟨1, "Alice", none, true⟩, ⟨2, "Bob", none, true⟩]
      [⟨1, 1, 1, 7, 0, none, none⟩]) 7 1 2 none none 5 none).2.assignments.countP
      (fun b => b.isOpen && b.car_id == 1 && b.driver_id == 2 &&
        b.assigned_by == 7 && b.assigned_at == resolveAssignedTime none none 5) = 1 :=
  ⟨(createAssignment_reassigns (Store.mk [] [⟨1, "A", "M", true⟩]
      [⟨1, "Alice", none, true⟩, ⟨2, "Bob", none, true⟩]
      [⟨1, 1, 1, 7, 0, none, none⟩]) 7 1 2 1 none none 5
      (List.pairwise_singleton _ _) (by decide) (by decide) (by decide) (by decide)
      ⟨1, 1, 1, 7, 0, none, none⟩ (List.mem_singleton.mpr rfl) rfl rfl rfl
      (by decide)).1,
   (createAssignment_reassigns (Store.mk [] [⟨1, "A", "M", true⟩]
      [⟨1, "Alice", none, true⟩, ⟨2, "Bob", none, true⟩]
      [⟨1, 1, 1, 7, 0, none, none⟩]) 7 1 2 1 none none 5
      (List.pairwise_singleton _ _) (by decide) (by decide) (by decide) (by decide)
      ⟨1, 1, 1, 7, 0, none, none⟩ (List.mem_singleton.mpr rfl) rfl rfl rfl
      (by decide)).2.2.2⟩

/-- C4 counterexample: the claim quantifies over any driver `X` the car
is openly assigned to, including the driver being assigned.  Assigning
car 1 to driver 1 while car 1 is openly assigned to driver `X = 1`
leaves driver 1 WITH an open assignment (the freshly inserted row), so
"driver X has no open assignment" fails. -/
theorem createAssignment_same_driver_keeps_open :
    ((createAssignment (Store.mk [] [⟨1, "A", "M", true⟩] [⟨1, "Alice", none, true⟩]
      [⟨1, 1, 1, 7, 0, none, none⟩]) 7 1 1 none none 5 none).2.assignments.countP
      (fun b => b.isOpen && b.driver_id == 1) = 1) ∧
    ¬ (∀ b ∈ (createAssignment (Store.mk [] [⟨1, "A", "M", true⟩]
      [⟨1, "Alice", none, true⟩] [⟨1, 1, 1, 7, 0, none, none⟩])
        7 1 1 none none 5 none).2.assignments,
      b.driver_id = 1 → b.unassigned_at ≠ none) := by
  constructor
  · decide
  · intro h
    exact absurd (h ⟨2, 1, 1, 7, 5, none, none⟩ (by decide) rfl) (by decide)

/- ### Claim C5 -/

/-- Stamping a row twice with the same values is stamping it once. -/
theorem closeRow_idem (actor t : Nat) (a : Assignment) :
    closeRow actor t (closeRow actor t a) = closeRow actor t a := by
  unfold closeRow
  rfl

/-- The guarded close is idempotent on each row. -/
theorem closeRowIf_idem (p : Assignment → Bool) (actor t : Nat) (a : Assignment) :
    closeRowIf p actor t (closeRowIf p actor t a) = closeRowIf p actor t a := by
  by_cases h : (p a && a.isOpen) = true
  · have h1 : closeRowIf p actor t a = closeRow actor t a := by
      unfold closeRowIf
      rw [if_pos h]
    rw [h1]
    unfold closeRowIf
    rw [if_neg (by
      unfold closeRow Assignment.isOpen
      simp)]
  · have h1 : closeRowIf p actor t a = a := by
      unfold closeRowIf
      rw [if_neg h]
    rw [h1, h1]

/-- The unguarded by-id update is idempotent on each row. -/
theorem closeRowById_idem (actor t aid : Nat) (a : Assignment) :
    closeRowById actor t aid (closeRowById actor t aid a) = closeRowById actor t aid a := by
  by_cases h : (a.id == aid) = true
  · have h1 : closeRowById actor t aid a = closeRow actor t a := by
      unfold closeRowById
      rw [if_pos h]
    rw [h1]
    unfold closeRowById
    rw [if_pos (by unfold closeRow; simpa using h)]
    exact closeRow_idem actor t a
  · have h1 : closeRowById actor t aid a = a := by
      unfold closeRowById
      rw [if_neg h]
    rw [h1, h1]

/-- A row with a different id is untouched by the by-id update. -/
theorem closeRowById_of_ne (actor t aid : Nat) (a : Assignment)
    (h : a.id ≠ aid) : closeRowById actor t aid a = a := by
  unfold closeRowById
  rw [if_neg (by simpa using h)]

/-- C5 as amended: `POST /api/assignments/unassign` (by car) is a no-op
returning 200 when the car (non-falsy) has no open assignment, and
running it twice with the same arguments equals running it once;
`PUT /api/assignments/:id` run twice with the same arguments equals
running it once, and is a no-op when no row carries the id — but, by
the counterexample, it is NOT a no-op on a row that is already closed. -/
theorem endAssignment_total_idempotent (s : Store) (actor car aid : Nat)
    (uat et : Option Nat) (now : Nat) :
    (car ≠ 0 → (∀ a ∈ s.assignments, a.car_id = car → a.unassigned_at ≠ none) →
      unassignByCar s actor car uat now = (200, s)) ∧
    (unassignByCar (unassignByCar s actor car uat now).2 actor car uat now).2 =
      (unassignByCar s actor car uat now).2 ∧
    (endAssignmentById (endAssignmentById s actor aid et now).2 actor aid et now).2 =
      (endAssignmentById s actor aid et now).2 ∧
    ((∀ a ∈ s.assignments, a.id ≠ aid) → endAssignmentById s actor aid et now = (200, s)) := by
  refine ⟨?_, ?_, ?_, ?_⟩
  · intro hc0 hnoopen
    unfold unassignByCar closeOpenByCar
    rw [if_neg hc0]
    rw [map_eq_self_of_forall _ s.assignments (by
      intro a ha
      by_cases hcar : a.car_id = car
      · exact closeRowIf_of_closed _ actor _ a (hnoopen a ha hcar)
      · exact closeRowIf_of_notmatch _ actor _ a (by simpa using hcar))]
  · unfold unassignByCar closeOpenByCar
    by_cases hc0 : car = 0
    · simp [hc0]
    · simp [hc0, map_map_of_idem (closeRowIf (fun a => a.car_id == car) actor (uat.getD now))
        (closeRowIf_idem (fun a => a.car_id == car) actor (uat.getD now)) s.assignments]
  · unfold endAssignmentById
    simp [map_map_of_idem (closeRowById actor (et.getD now) aid)
      (closeRowById_idem actor (et.getD now) aid) s.assignments]
  · intro hnone
    unfold endAssignmentById
    rw [map_eq_self_of_forall _ s.assignments (by
      intro a ha
      exact closeRowById_of_ne actor _ aid a (hnone a ha))]

/-- C5 witness: on a store with no assignments both endpoints are exact
no-ops. -/
theorem endAssignment_total_idempotent_witness :
    unassignByCar (Store.mk [] [] [] []) 3 1 none 10 = (200, Store.mk [] [] [] []) ∧
    endAssignmentById (Store.mk [] [] [] []) 3 1 none 10 = (200, Store.mk [] [] [] []) :=
  ⟨(endAssignment_total_idempotent (Store.mk [] [] [] []) 3 1 1 none none 10).1
      (by decide) (by intro a ha; exact absurd ha (List.not_mem_nil a)),
   (endAssignment_total_idempotent (Store.mk [] [] [] []) 3 1 1 none none 10).2.2.2
      (by intro a ha; exact absurd ha (List.not_mem_nil a))⟩

/-- C5 counterexample: assignment 1 is already closed, so no open
assignment matches, yet `PUT /api/assignments/1` overwrites the closed
row's `unassigned_at`/`unassigned_by` instead of leaving the store
unchanged. -/
theorem endAssignmentById_closed_not_noop :
    (endAssignmentById (Store.mk [] [] [] [⟨1, 1, 1, 1, 0, some 5, some 2⟩])
      3 1 (some 9) 10).1 = 200 ∧
    (endAssignmentById (Store.mk [] [] [] [⟨1, 1, 1, 1, 0, some 5, some 2⟩])
      3 1 (some 9) 10).2 ≠ Store.mk [] [] [] [⟨1, 1, 1, 1, 0, some 5, some 2⟩] := by
  constructor
  · rfl
  · decide

/- ### Claim C6 -/

theorem register_assignments (s : Store) (u p h : String) :
    (register s u p h).2.assignments = s.assignments := by
  unfold register
  split_ifs <;> rfl

theorem createUser_assignments (s : Store) (u p h r : String) :
    (createUser s u p h r).2.assignments = s.assignments := by
  unfold createUser
  split_ifs <;> rfl

theorem deleteUser_assignments (s : Store) (actor target : Nat) :
    (deleteUser s actor target).2.assignments = s.assignments := by
  unfold deleteUser
  split_ifs <;> rfl

theorem createCar_assignments (s : Store) (plate m : String) :
    (createCar s plate m).2.assignments = s.assignments := by
  unfold createCar
  split_ifs <;> rfl

theorem deleteCar_assignments (s : Store) (cid : Nat) :
    (deleteCar s cid).2.assignments = s.assignments := by
  unfold deleteCar
  rfl

theorem createDriver_assignments (s : Store) (n : String) (ph : Option String) :
    (createDriver s n ph).2.assignments = s.assignments := by
  unfold createDriver
  split_ifs <;> rfl

theorem deleteDriver_assignments (s : Store) (did : Nat) :
    (deleteDriver s did).2.assignments = s.assignments := by
  unfold deleteDriver
  rfl

/-- The store a `createAssignment` call leaves behind is the old store
or the full three-step commit. -/
theorem createAssignment_state_cases (s : Store) (actor car driver : Nat)
    (aat st : Option Nat) (now : Nat) (failStep : Option Nat) :
    (createAssignment s actor car driver aat st now failStep).2 = s ∨
    (createAssignment s actor car driver aat st now failStep).2 =
      createCommitState s actor car driver (resolveAssignedTime aat st now) now := by
  unfold createAssignment
  by_cases h0 : car = 0 ∨ driver = 0
  · rw [if_pos h0]
    exact Or.inl rfl
  · rw [if_neg h0]
    by_cases hc : carActiveExists s car = false
    · rw [if_pos hc]
      exact Or.inl rfl
    · rw [if_neg hc]
      by_cases hd : driverActiveExists s driver = false
      · rw [if_pos hd]
        exact Or.inl rfl
      · rw [if_neg hd]
        unfold txRun
        rcases txGo_all_or_nothing s.assignments failStep
            [closeOpenByCar actor now car, closeOpenByDriver actor now driver,
             insertAssignment car driver actor (resolveAssignedTime aat st now)]
            0 s.assignments with heq | heq
        · rw [heq]
          exact Or.inl rfl
        · rw [heq]
          refine Or.inr ?_
          unfold createCommitState
          simp only [List.foldl_cons, List.foldl_nil]

/-- The by-id update never reopens a closed row. -/
theorem closeRowById_keeps_closed (actor t aid : Nat) (a : Assignment)
    (h : a.unassigned_at ≠ none) : (closeRowById actor t aid a).unassigned_at ≠ none := by
  unfold closeRowById closeRow
  by_cases hid : (a.id == aid) = true
  · rw [if_pos hid]
    simp
  · rw [if_neg hid]
    exact h

/-- C6 as amended: every public-interface operation transforms the
assignments table into an elementwise image of the old table (no row is
ever deleted) plus freshly inserted rows; the image preserves `id`,
`car_id`, `driver_id`, `assigned_by` and `assigned_at` of every row and
never reopens a closed row; and every operation except
`PUT /api/assignments/:id` (`endById`) leaves closed rows entirely
unchanged — `endById`, by the counterexample, can overwrite the
`unassigned_at`/`unassigned_by` of an already-closed row. -/
theorem assignment_rows_immutable (s : Store) (op : ApiOp) :
    ∃ g : Assignment → Assignment, ∃ news : List Assignment,
      (applyApiOp s op).assignments = s.assignments.map g ++ news ∧
      (∀ a, (g a).id = a.id ∧ (g a).car_id = a.car_id ∧
        (g a).driver_id = a.driver_id ∧ (g a).assigned_by = a.assigned_by ∧
        (g a).assigned_at = a.assigned_at ∧
        (a.unassigned_at ≠ none → (g a).unassigned_at ≠ none)) ∧
      (ApiOp.isEndById op = false → ∀ a, a.unassigned_at ≠ none → g a = a) := by
  have hid : ∀ a : Assignment, (id a).id = a.id ∧ (id a).car_id = a.car_id ∧
      (id a).driver_id = a.driver_id ∧ (id a).assigned_by = a.assigned_by ∧
      (id a).assigned_at = a.assigned_at ∧
      (a.unassigned_at ≠ none → (id a).unassigned_at ≠ none) := by
    intro a
    exact ⟨rfl, rfl, rfl, rfl, rfl, fun h => h⟩
  cases op with
  | registerU u p h =>
    refine ⟨id, [], ?_, hid, fun _ a _ => rfl⟩
    simp [applyApiOp, register_assignments]
  | createU u p h r =>
    refine ⟨id, [], ?_, hid, fun _ a _ => rfl⟩
    simp [applyApiOp, createUser_assignments]
  | deleteU actor target =>
    refine ⟨id, [], ?_, hid, fun _ a _ => rfl⟩
    simp [applyApiOp, deleteUser_assignments]
  | createC plate m =>
    refine ⟨id, [], ?_, hid, fun _ a _ => rfl⟩
    simp [applyApiOp, createCar_assignments]
  | deleteC cid =>
    refine ⟨id, [], ?_, hid, fun _ a _ => rfl⟩
    simp [applyApiOp, deleteCar_assignments]
  | createD n ph =>
    refine ⟨id, [], ?_, hid, fun _ a _ => rfl⟩
    simp [applyApiOp, createDriver_assignments]
  | deleteD did =>
    refine ⟨id, [], ?_, hid, fun _ a _ => rfl⟩
    simp [applyApiOp, deleteDriver_assignments]
  | createA actor car driver aat st now failStep =>
    rcases createAssignment_state_cases s actor car driver aat st now failStep with
      heq | heq
    · refine ⟨id, [], ?_, hid, fun _ a _ => rfl⟩
      simp only [applyApiOp, heq]
      simp
    · refine ⟨closeRowIf (fun x => x.driver_id == driver) actor now ∘
        closeRowIf (fun x => x.car_id == car) actor now,
        [newAssignment (closeOpenByDriver actor now driver
          (closeOpenByCar actor now car s.assignments)) car driver actor
          (resolveAssignedTime aat st now)], ?_, ?_, ?_⟩
      · simp only [applyApiOp, heq]
        unfold createCommitState insertAssignment closeOpenByDriver closeOpenByCar
        rw [List.map_map]
      · intro a
        simp only [Function.comp_apply]
        refine ⟨?_, ?_, ?_, ?_, ?_, ?_⟩
        · rw [closeRowIf_id, closeRowIf_id]
        · rw [closeRowIf_car_id, closeRowIf_car_id]
        · rw [closeRowIf_driver_id, closeRowIf_driver_id]
        · rw [closeRowIf_assigned_by, closeRowIf_assigned_by]
        · rw [closeRowIf_assigned_at, closeRowIf_assigned_at]
        · intro hcl
          rw [closeRowIf_of_closed _ actor now a hcl,
            closeRowIf_of_closed _ actor now a hcl]
          exact hcl
      · intro _ a hcl
        simp only [Function.comp_apply]
        rw [closeRowIf_of_closed _ actor now a hcl,
          closeRowIf_of_closed _ actor now a hcl]
  | unassignCar actor car uat now =>
    by_cases hc0 : car = 0
    · refine ⟨id, [], ?_, hid, fun _ a _ => rfl⟩
      simp [applyApiOp, unassignByCar, hc0]
    · refine ⟨closeRowIf (fun x => x.car_id == car) actor (uat.getD now), [], ?_, ?_, ?_⟩
      · simp [applyApiOp, unassignByCar, hc0, closeOpenByCar]
      · intro a
        refine ⟨closeRowIf_id _ _ _ _, closeRowIf_car_id _ _ _ _,
          closeRowIf_driver_id _ _ _ _, closeRowIf_assigned_by _ _ _ _,
          closeRowIf_assigned_at _ _ _ _, ?_⟩
        intro hcl
        rw [closeRowIf_of_closed _ actor _ a hcl]
        exact hcl
      · intro _ a hcl
        exact closeRowIf_of_closed _ actor _ a hcl
  | endById actor aid et now =>
    refine ⟨closeRowById actor (et.getD now) aid, [], ?_, ?_, ?_⟩
    · simp [applyApiOp, endAssignmentById]
    · intro a
      exact ⟨closeRowById_id _ _ _ _, closeRowById_car_id _ _ _ _,
        closeRowById_driver_id _ _ _ _, closeRowById_assigned_by _ _ _ _,
        closeRowById_assigned_at _ _ _ _, closeRowById_keeps_closed _ _ _ a⟩
    · intro hfalse
      simp [ApiOp.isEndById] at hfalse

/-- C6 counterexample: assignment 1 is closed
(`unassigned_at = 5`, `unassigned_by = 2`), yet
`PUT /api/assignments/1` with `end_time = 9` by user 3 rewrites the
closed row's `unassigned_at`/`unassigned_by`. -/
theorem putAssignment_overwrites_closed_row :
    (endAssignmentById (Store.mk [] [] [] [⟨1, 1, 1, 1, 0, some 5, some 2⟩])
        3 1 (some 9) 10).2.assignments = [⟨1, 1, 1, 1, 0, some 9, some 3⟩] ∧
    (⟨1, 1, 1, 1, 0, some 9, some 3⟩ : Assignment) ≠ ⟨1, 1, 1, 1, 0, some 5, some 2⟩ := by
  constructor
  · rfl
  · decide

/- ### Claim C7 -/

/-- C7 counterexample: the final iteration's `GET /api/assignments`
query has no `unassigned_at IS NULL` filter — a store whose only
assignment is closed still yields that row, while the claim says no
closed row is included. -/
theorem listAssignments_includes_closed :
    (listAssignments (Store.mk [] [] [] [⟨1, 1, 1, 1, 0, some 5, some 2⟩])).map
      AssignmentView.row = [⟨1, 1, 1, 1, 0, some 5, some 2⟩] ∧
    (⟨1, 1, 1, 1, 0, some 5, some 2⟩ : Assignment).unassigned_at ≠ none := by
  constructor
  · rfl
  · decide

/-- C7 as amended: the final iteration's `GET /api/assignments` returns
every assignment row — open and closed — exactly once (a permutation of
the table), ordered by `id` descending, each joined with the
car/driver/user display fields of the `LEFT JOIN`s. -/
theorem listAssignments_characterization (s : Store) :
    ((listAssignments s).map AssignmentView.row).Perm s.assignments ∧
    (listAssignments s).Pairwise (fun x y => y.row.id ≤ x.row.id) ∧
    ∀ v ∈ listAssignments s,
      v.license_plate = lookupCarPlate s.cars v.row.car_id ∧
      v.driver_name = lookupDriverName s.drivers v.row.driver_id ∧
      v.assigned_by_name = lookupUsername s.users (some v.row.assigned_by) ∧
      v.unassigned_by_name = lookupUsername s.users v.row.unassigned_by := by
  refine ⟨?_, ?_, ?_⟩
  · unfold listAssignments
    rw [List.map_map]
    have : (AssignmentView.row ∘ toView s) = fun a => a := by
      funext a
      rfl
    rw [this]
    rw [show List.map (fun a : Assignment => a) (List.insertionSort idDescRel s.assignments)
        = List.insertionSort idDescRel s.assignments from List.map_id _]
    exact List.perm_insertionSort idDescRel s.assignments
  · unfold listAssignments
    refine List.Pairwise.map (toView s) ?_ (List.sorted_insertionSort idDescRel s.assignments)
    intro a b hab
    exact hab
  · intro v hv
    unfold listAssignments at hv
    rcases List.mem_map.mp hv with ⟨a, _, rfl⟩
    exact ⟨rfl, rfl, rfl, rfl⟩

/- ### Claim C8 -/

/-- C8 counterexample: a token signed with the wrong secret passes
through the final iteration's middleware and is rejected with 403, not
with the 401 the claim requires for an invalid signature. -/
theorem authFixed_wrong_signature_403 :
    authFixed "secret" 5 none (.token (some (jwtSign "other" ⟨1, "u", "user"⟩ 100)))
      = .error 403 ∧
    (Except.error 403 : Except Nat Claims) ≠ .error 401 := by
  constructor
  · rfl
  · simp

/-- C8 as amended: the first iteration's middleware behaves exactly as
the claim says (one function with the spec's `authorize`: 401 for
missing/malformed/expired/wrongly-signed tokens, 403 for a wrong role,
the handler reached exactly on a verified token with a matching role);
the final iteration's middleware agrees except that a present but
unverifiable token — malformed, expired or wrongly signed — is rejected
with 403 instead of 401 (missing header or missing token part still get
401). -/
theorem auth_middleware_characterization (secret : String) (now : Nat)
    (requiredRole : Option String) (h : HeaderModel) :
    authV1 secret now requiredRole h = specAuthorize secret now requiredRole h ∧
    authFixed secret now requiredRole h =
      (if tokenPresentButInvalid secret now h then Except.error 403
       else specAuthorize secret now requiredRole h) := by
  cases h with
  | absent => exact ⟨rfl, rfl⟩
  | noToken => exact ⟨rfl, rfl⟩
  | token mt =>
    cases mt with
    | none => exact ⟨rfl, rfl⟩
    | some t =>
      rcases hv : jwtVerify secret now t with _ | c
      · constructor
        · simp [authV1, specAuthorize, hv]
        · simp [authFixed, tokenPresentButInvalid, hv]
      · constructor
        · simp [authV1, specAuthorize, hv]
        · simp [authFixed, specAuthorize, tokenPresentButInvalid, hv]

/- ### Claim C9 -/

/-- Username characters are not whitespace. -/
theorem isUsernameChar_not_ws (c : Char) (h : isUsernameChar c = true) :
    isWS c = false := by
  by_contra hw
  simp only [Bool.not_eq_false] at hw
  simp only [isWS, Bool.or_eq_true, beq_iff_eq] at hw
  rcases hw with ((h1 | h1) | h1) | h1 <;> subst h1 <;> exact absurd h (by decide)

/-- Dropping leading whitespace from a whitespace-free list is the
identity. -/
theorem dropWhile_ws_eq_self (l : List Char) (h : ∀ c ∈ l, isWS c = false) :
    l.dropWhile isWS = l := by
  cases l with
  | nil => rfl
  | cons a l =>
    rw [List.dropWhile_cons]
    simp [h a (List.mem_cons_self a l)]

/-- Trimming a string of username characters is the identity. -/
theorem trimStr_of_no_ws (u : String) (h : ∀ c ∈ u.toList, isWS c = false) :
    trimStr u = u := by
  unfold trimStr
  rw [dropWhile_ws_eq_self u.toList h]
  rw [dropWhile_ws_eq_self u.toList.reverse (by
    intro c hc
    exact h c (List.mem_reverse.mp hc))]
  rw [List.reverse_reverse]
  cases u
  rfl

/-- A valid username (all characters alphanumeric or underscore) trims
to itself. -/
theorem validUsername_trim (u : String) (hu : validUsername u = true) :
    trimStr u = u := by
  simp only [validUsername, Bool.and_eq_true, List.all_eq_true] at hu
  exact trimStr_of_no_ws u (fun c hc => isUsernameChar_not_ws c (hu.2 c hc))

/-- A valid username fails the `required` check of nothing: it is
non-empty after trimming. -/
theorem validUsername_required (u : String) (hu : validUsername u = true) :
    requiredFail u = false := by
  unfold requiredFail
  rw [validUsername_trim u hu]
  simp only [validUsername, Bool.and_eq_true, decide_eq_true_eq] at hu
  have : u ≠ "" := by
    intro he
    subst he
    symm at hu
    simp at hu
  simpa using this

/-- C9 counterexample: username `"ab"` already exists in the store, but
a registration request for `"ab"` is rejected by the username length
validation with 400 before the conflict check — not with the 409
Conflict the claim requires (the store is still unchanged). -/
theorem register_existing_invalid_username_400 :
    register (Store.mk [⟨1, "ab", "h", "user"⟩] [] [] []) "ab" "password" "h2"
      = (400, Store.mk [⟨1, "ab", "h", "user"⟩] [] [] []) ∧ (400 : Nat) ≠ 409 := by
  constructor
  · decide
  · decide

/-- C9 as amended: for a registration request that passes the route's
input validation (valid username, valid non-blank password), an already
existing trimmed username is answered with 409 Conflict and the store
is returned unchanged; and any successful (201) registration appends
exactly one user row whose role is `'user'`. -/
theorem register_conflict_and_insert (s : Store) (u p hash : String)
    (hu : validUsername u = true) (hp : validPassword p = true)
    (hpr : requiredFail p = false) :
    ((∃ x ∈ s.users, x.username = trimStr u) → register s u p hash = (409, s)) ∧
    ((register s u p hash).1 = 201 →
      (register s u p hash).2 =
        { s with users := s.users ++ [⟨freshUserId s.users, trimStr u, hash, "user"⟩] }) := by
  have hreq := validUsername_required u hu
  constructor
  · intro hex
    have hany : s.users.any (fun x => x.username == trimStr u) = true := by
      rw [List.any_eq_true]
      rcases hex with ⟨x, hx, hxu⟩
      exact ⟨x, hx, by simpa using hxu⟩
    unfold register
    simp [hreq, hu, hp, hpr, hany]
  · intro h201
    by_cases hany : s.users.any (fun x => x.username == trimStr u) = true
    · exfalso
      unfold register at h201
      simp [hreq, hu, hp, hpr, hany] at h201
    · unfold register
      simp only [Bool.not_eq_true] at hany
      simp [hreq, hu, hp, hpr, hany]

/-- C9 witness: registering an existing valid username answers 409 and
leaves the store unchanged. -/
theorem register_conflict_and_insert_witness :
    register (Store.mk [⟨1, "bob", "h", "user"⟩] [] [] []) "bob" "secret" "h2"
      = (409, Store.mk [⟨1, "bob", "h", "user"⟩] [] [] []) :=
  (register_conflict_and_insert (Store.mk [⟨1, "bob", "h", "user"⟩] [] [] [])
      "bob" "secret" "h2" (by decide) (by decide) (by decide)).1
    ⟨⟨1, "bob", "h", "user"⟩, by decide, by decide⟩

/- ### Claim C10 -/

/-- A `find?`-then-project lookup is unchanged by a map that preserves
the predicate and the projection. -/
theorem find?_map_proj {A B : Type} (f : A → A) (p : A → Bool) (proj : A → B)
    (hp : ∀ a, p (f a) = p a) (hproj : ∀ a, proj (f a) = proj a) (l : List A) :
    Option.map proj (List.find? p (l.map f)) = Option.map proj (List.find? p l) := by
  induction l with
  | nil => rfl
  | cons a l ih =>
    rw [List.map_cons]
    cases hpa : p a with
    | true =>
      rw [List.find?_cons_of_pos l hpa, List.find?_cons_of_pos (l.map f) (by rw [hp a]; exact hpa)]
      simp [hproj a]
    | false =>
      rw [List.find?_cons_of_neg l (by simp [hpa]), List.find?_cons_of_neg (l.map f) (by simp [hp a, hpa])]
      exact ih

/-- Soft-deleting a car changes no car's id or plate, so the plate
lookup of the assignment listing is unchanged. -/
theorem lookupCarPlate_softDelete (cars : List Car) (cid qid : Nat) :
    lookupCarPlate (cars.map (fun c => if c.id == cid then { c with is_active := false } else c))
      qid = lookupCarPlate cars qid := by
  unfold lookupCarPlate
  refine find?_map_proj _ _ _ ?_ ?_ cars
  · intro a
    split <;> rfl
  · intro a
    split <;> rfl

/-- Soft-deleting a driver changes no driver's id or name, so the name
lookup of the assignment listing is unchanged. -/
theorem lookupDriverName_softDelete (drivers : List Driver) (did qid : Nat) :
    lookupDriverName (drivers.map (fun d => if d.id == did then { d with is_active := false } else d))
      qid = lookupDriverName drivers qid := by
  unfold lookupDriverName
  refine find?_map_proj _ _ _ ?_ ?_ drivers
  · intro a
    split <;> rfl
  · intro a
    split <;> rfl

/-- C10: soft-deleting a car (`DELETE /api/cars/:id`) or a driver
(`DELETE /api/drivers/:id`) touches only the target row's `is_active`
flag: the assignments table, the other tables, every other row and all
other fields of the target row are unchanged; the `/api/stats`
`activeAssignments` count is unchanged; and the assignment listing
(rows and joined display fields alike) is unchanged. -/
theorem softDelete_frame (s : Store) (targetId : Nat) :
    (deleteCar s targetId).2.assignments = s.assignments ∧
    (deleteCar s targetId).2.drivers = s.drivers ∧
    (deleteCar s targetId).2.users = s.users ∧
    (deleteDriver s targetId).2.assignments = s.assignments ∧
    (deleteDriver s targetId).2.cars = s.cars ∧
    (deleteDriver s targetId).2.users = s.users ∧
    (stats (deleteCar s targetId).2).2.2 = (stats s).2.2 ∧
    (stats (deleteDriver s targetId).2).2.2 = (stats s).2.2 ∧
    listAssignments (deleteCar s targetId).2 = listAssignments s ∧
    listAssignments (deleteDriver s targetId).2 = listAssignments s ∧
    (deleteCar s targetId).2.cars.length = s.cars.length ∧
    (deleteDriver s targetId).2.drivers.length = s.drivers.length ∧
    (∀ c ∈ s.cars, c.id ≠ targetId → c ∈ (deleteCar s targetId).2.cars) ∧
    (∀ c ∈ (deleteCar s targetId).2.cars, ∃ c0 ∈ s.cars, c.id = c0.id ∧
      c.license_plate = c0.license_plate ∧ c.model = c0.model ∧
      (c0.id ≠ targetId → c = c0) ∧ (c0.id = targetId → c.is_active = false)) ∧
    (∀ d ∈ s.drivers, d.id ≠ targetId → d ∈ (deleteDriver s targetId).2.drivers) ∧
    (∀ d ∈ (deleteDriver s targetId).2.drivers, ∃ d0 ∈ s.drivers, d.id = d0.id ∧
      d.name = d0.name ∧ d.phone = d0.phone ∧
      (d0.id ≠ targetId → d = d0) ∧ (d0.id = targetId → d.is_active = false)) := by
  refine ⟨rfl, rfl, rfl, rfl, rfl, rfl, rfl, rfl, ?_, ?_, by simp [deleteCar],
    by simp [deleteDriver], ?_, ?_, ?_, ?_⟩
  · unfold listAssignments
    refine List.map_congr_left ?_
    intro a _
    unfold toView deleteCar
    rw [lookupCarPlate_softDelete]
  · unfold listAssignments
    refine List.map_congr_left ?_
    intro a _
    unfold toView deleteDriver
    rw [lookupDriverName_softDelete]
  · intro c hc hne
    unfold deleteCar
    have : (if (c.id == targetId) = true then { c with is_active := false } else c) = c := by
      rw [if_neg (by simpa using hne)]
    rw [show c = (if (c.id == targetId) = true then { c with is_active := false } else c)
      from this.symm]
    exact List.mem_map_of_mem _ hc
  · intro c hc
    unfold deleteCar at hc
    rcases List.mem_map.mp hc with ⟨c0, hc0, rfl⟩
    refine ⟨c0, hc0, ?_⟩
    by_cases hid : (c0.id == targetId) = true
    · rw [if_pos hid]
      exact ⟨rfl, rfl, rfl, fun hne => absurd (by simpa using hid) hne, fun _ => rfl⟩
    · rw [if_neg hid]
      exact ⟨rfl, rfl, rfl, fun _ => rfl, fun he => absurd he (by simpa using hid)⟩
  · intro d hd hne
    unfold deleteDriver
    have : (if (d.id == targetId) = true then { d with is_active := false } else d) = d := by
      rw [if_neg (by simpa using hne)]
    rw [show d = (if (d.id == targetId) = true then { d with is_active := false } else d)
      from this.symm]
    exact List.mem_map_of_mem _ hd
  · intro d hd
    unfold deleteDriver at hd
    rcases List.mem_map.mp hd with ⟨d0, hd0, rfl⟩
    refine ⟨d0, hd0, ?_⟩
    by_cases hid : (d0.id == targetId) = true
    · rw [if_pos hid]
      exact ⟨rfl, rfl, rfl, fun hne => absurd (by simpa using hid) hne, fun _ => rfl⟩
    · rw [if_neg hid]
      exact ⟨rfl, rfl, rfl, fun _ => rfl, fun he => absurd he (by simpa using hid)⟩
